import Mathlib

/-!
Verification development for the `sdr_sourcer` repository: a shallow
embedding of the heuristic text-classification and deduplication pipeline
of `sdr_candidate_sourcer.py` and of the experience estimator of
`update_experience.py`, together with theorems settling the specified
properties.

Strings are modelled as Lean `String`s (in this toolchain a wrapper around
`List Char`); Python's `str.lower`, `\w`/`\d`/`\s` regex classes and
`urllib.parse.unquote` are modelled on the ASCII range, which covers every
pattern literal occurring in the source.
-/

namespace SdrSourcer

/-! ### Basic string helpers (models of the Python `str` operations used) -/

/-- Model of Python's `str.lower` on one character (ASCII range, which is
where all the source's pattern literals live).  This is exactly core
`Char.toLower`, restated here so the development controls the definition. -/
def lowerChar (c : Char) : Char :=
  if 65 ≤ c.toNat ∧ c.toNat ≤ 90 then Char.ofNat (c.toNat + 32) else c

/-- Model of Python's `str.lower` as used on headlines, snippets and URLs. -/
def pyLowerL (l : List Char) : List Char := l.map lowerChar

def pyLower (s : String) : String := ⟨pyLowerL s.data⟩

/-- Model of Python's `s.rstrip(c)`: drop every trailing occurrence of `c`. -/
def rstripCharL (c : Char) (l : List Char) : List Char :=
  (l.reverse.dropWhile (fun x => x == c)).reverse

/-- Model of Python's `s.split(sep)[0]` for a one-character separator:
everything before the first occurrence of `sep`. -/
def splitFirstL (sep : Char) (l : List Char) : List Char :=
  l.takeWhile (fun x => x != sep)

/-- Does the character list `pre` start the character list `l`? -/
def startsWithL : List Char → List Char → Bool
  | [], _ => true
  | _ :: _, [] => false
  | a :: as, b :: bs => a == b && startsWithL as bs

/-- Model of Python's substring test `sub in s` (on character lists). -/
def containsSubL (l sub : List Char) : Bool :=
  if startsWithL sub l then true
  else
    match l with
    | [] => false
    | _ :: rest => containsSubL rest sub

/-- Model of Python's substring test `sub in s` on strings. -/
def strContains (s sub : String) : Bool := containsSubL s.data sub.data

/-- Value of an ASCII hex digit, if the character is one. -/
def hexVal (c : Char) : Option Nat :=
  if 48 ≤ c.toNat ∧ c.toNat ≤ 57 then some (c.toNat - 48)
  else if 97 ≤ c.toNat ∧ c.toNat ≤ 102 then some (c.toNat - 87)
  else if 65 ≤ c.toNat ∧ c.toNat ≤ 70 then some (c.toNat - 55)
  else none

/-- Model of `urllib.parse.unquote` restricted to single-byte (ASCII)
percent-escapes: a `%` followed by two hex digits decodes to that code
point, any other `%` is left in place.  All inputs appearing in the
theorems below are ASCII, where this agrees with Python. -/
def unquoteL : List Char → List Char
  | [] => []
  | '%' :: a :: b :: rest =>
    match hexVal a, hexVal b with
    | some x, some y => Char.ofNat (16 * x + y) :: unquoteL rest
    | _, _ => '%' :: unquoteL (a :: b :: rest)
  | c :: rest => c :: unquoteL rest

/-- Model of Python's `int` on a string of decimal digits. -/
def natOfDigits (l : List Char) : Nat :=
  l.foldl (fun a c => a * 10 + (c.toNat - 48)) 0

/-- Decimal rendering of a natural number (Python's `str`). -/
def natToStr (n : Nat) : String := toString n

/-! ### A small regular-expression engine

The source matches Python regular expressions with `re.search`.  Every
pattern appearing in the source is built from literals, character classes,
greedy `*`/`+`/`?` over single-character classes, alternation, groups,
word boundaries `\b` and negative lookahead `(?!...)`; the engine below
implements exactly those constructs with Python's backtracking preference
order (alternatives left to right, repetition longest first, `re.search`
at the leftmost matching position). -/

inductive RE where
  /-- matches the empty string -/
  | eps : RE
  /-- one character satisfying the class -/
  | cls : (Char → Bool) → RE
  /-- greedy `*` over a one-character class -/
  | star : (Char → Bool) → RE
  | seq : RE → RE → RE
  /-- alternation, left branch preferred (Python semantics) -/
  | alt : RE → RE → RE
  /-- numbered capturing group -/
  | grp : Nat → RE → RE
  /-- word boundary `\b` -/
  | bnd : RE
  /-- negative lookahead `(?!...)` -/
  | nla : RE → RE

/-- A match result: the unconsumed suffix and the captured groups. -/
structure MRes where
  rest : List Char
  caps : List (Nat × List Char)
deriving Repr, DecidableEq

/-- Python's `\w` class, ASCII range: `[a-zA-Z0-9_]`. -/
def isWordChar (c : Char) : Bool := c.isAlphanum || c == '_'

/-- Python's `\s` class, ASCII range. -/
def isSpaceChar (c : Char) : Bool :=
  c == ' ' || c == '\t' || c == '\n' || c == '\r' ||
  c == Char.ofNat 11 || c == Char.ofNat 12

/-- Python's `\d` class, ASCII range. -/
def isDigitChar (c : Char) : Bool := 48 ≤ c.toNat && c.toNat ≤ 57

/-- The part of `cs` consumed by a match that left `rest`. -/
def consumedPrefix (cs rest : List Char) : List Char :=
  cs.take (cs.length - rest.length)

/-- The character immediately before `rest` inside `cs`, given that the
character before `cs` itself was `pv`. -/
def prevAfter (pv : Option Char) (cs rest : List Char) : Option Char :=
  match (consumedPrefix cs rest).getLast? with
  | some c => some c
  | none => pv

/-- Is there a `\b` boundary between the previous character and `cs`? -/
def isBoundary (pv : Option Char) (cs : List Char) : Bool :=
  let a := match pv with | some c => isWordChar c | none => false
  let b := match cs with | c :: _ => isWordChar c | [] => false
  a != b

/-- Suffixes reachable by a greedy `p*`, longest consumption first
(Python's preference order for greedy repetition). -/
def starSplits (p : Char → Bool) (cs : List Char) : List (List Char) :=
  let n := (cs.takeWhile p).length
  (List.range (n + 1)).map (fun i => cs.drop (n - i))

/-- Run a regular expression at the start of `cs` (previous character
`pv`), returning every way it can match, in Python's backtracking
preference order. -/
def mrun : RE → Option Char → List Char → List MRes
  | .eps, _, cs => [⟨cs, []⟩]
  | .cls _, _, [] => []
  | .cls p, _, c :: rest => if p c then [⟨rest, []⟩] else []
  | .star p, _, cs => (starSplits p cs).map (fun r => ⟨r, []⟩)
  | .seq a b, pv, cs =>
    (mrun a pv cs).flatMap (fun m =>
      (mrun b (prevAfter pv cs m.rest) m.rest).map
        (fun m2 => ⟨m2.rest, m.caps ++ m2.caps⟩))
  | .alt a b, pv, cs => mrun a pv cs ++ mrun b pv cs
  | .grp n a, pv, cs =>
    (mrun a pv cs).map (fun m => ⟨m.rest, (n, consumedPrefix cs m.rest) :: m.caps⟩)
  | .bnd, pv, cs => if isBoundary pv cs then [⟨cs, []⟩] else []
  | .nla a, pv, cs => if (mrun a pv cs).isEmpty then [⟨cs, []⟩] else []

/-- `re.search`: try each position left to right; at the first position
where the expression matches, return the matched text (group 0) and the
captured groups. -/
def reSearchFrom (r : RE) (pv : Option Char) (cs : List Char) :
    Option (List Char × List (Nat × List Char)) :=
  match mrun r pv cs with
  | m :: _ => some (consumedPrefix cs m.rest, m.caps)
  | [] =>
    match cs with
    | [] => none
    | c :: rest => reSearchFrom r (some c) rest

def reSearch (r : RE) (s : String) : Option (List Char × List (Nat × List Char)) :=
  reSearchFrom r none s.data

/-- Boolean form of `re.search` (used where the source only tests truthiness). -/
def reTest (r : RE) (s : String) : Bool := (reSearch r s).isSome

/-- `match.group(n)` for the captured groups of a search result. -/
def capGroup (caps : List (Nat × List Char)) (n : Nat) : Option (List Char) :=
  (caps.find? (fun p => p.1 == n)).map (fun p => p.2)

/-! Pattern construction helpers. -/

/-- Sequence a list of expressions. -/
def seqs (l : List RE) : RE := l.foldr RE.seq RE.eps

/-- A literal string of characters. -/
def lit (s : String) : RE := seqs (s.data.map (fun c => RE.cls (fun x => x == c)))

/-- `\b`‹literal›`\b`. -/
def wlit (s : String) : RE := .seq .bnd (.seq (lit s) .bnd)

/-- Greedy `?`. -/
def opt (r : RE) : RE := .alt r .eps

/-- Left-to-right alternation of a nonempty list. -/
def alts (r : RE) (l : List RE) : RE := l.foldl RE.alt r

/-- `\d` -/
def dCls : RE := .cls isDigitChar
/-- `\d+` -/
def dPlus : RE := .seq dCls (.star isDigitChar)
/-- `\d{2}` -/
def d2 : RE := seqs [dCls, dCls]
/-- `\d{4}` -/
def d4 : RE := seqs [dCls, dCls, dCls, dCls]
/-- `\s*` -/
def sStar : RE := .star isSpaceChar
/-- `\s+` -/
def sPlus : RE := .seq (.cls isSpaceChar) sStar
/-- `.` (any character but newline) -/
def dotCls : RE := .cls (fun c => c != '\n')
/-- `.*` -/
def dotStar : RE := .star (fun c => c != '\n')
/-- `.?` -/
def dotOpt : RE := opt dotCls
/-- membership of a character in the characters of a string (char class) -/
def inStr (s : String) (c : Char) : Bool := s.data.any (fun x => x == c)
/-- the apostrophe character -/
def squote : Char := Char.ofNat 39
/-- `['"]` -/
def quoteCls : RE := .cls (fun c => c == squote || c == '"')

/-! ### Rule tables of `sdr_candidate_sourcer.py`

Each Lean list below transcribes, in order, the regex list of the same
name in the source; the original pattern is quoted in a comment where it
is not a plain `\b`‑delimited literal. -/

/-- `EXCLUDED_TITLES`: executive titles that are too senior. -/
def EXCLUDED_TITLES : List RE :=
  [wlit "vp", wlit "vice president", wlit "director", wlit "head of",
   wlit "chief", wlit "ceo", wlit "cro", wlit "coo", wlit "cfo",
   wlit "cmo", wlit "cto", wlit "svp", wlit "evp",
   wlit "senior vice president", wlit "executive vice president",
   wlit "general manager", wlit "gm", wlit "president", wlit "partner",
   wlit "principal", wlit "managing director", wlit "enterprise"]

/-- `ALLOWED_TITLES`: titles allowed even if an exclusion pattern matches. -/
def ALLOWED_TITLES : List RE :=
  [wlit "founder", wlit "owner", wlit "co-founder", wlit "cofounder"]

/-- `EXISTING_SDR_TITLES`: current/past SDR-role titles. -/
def EXISTING_SDR_TITLES : List RE :=
  [wlit "sdr", wlit "bdr", wlit "sales development representative",
   wlit "business development representative", wlit "sales development",
   wlit "business development rep", wlit "lead development representative",
   wlit "ldr", wlit "market development representative", wlit "mdr"]

/-- `UTAH_LOCATION_KEYWORDS`. -/
def UTAH_LOCATION_KEYWORDS : List RE :=
  [wlit "utah", wlit "salt lake city", wlit "slc", wlit "provo",
   wlit "ogden", wlit "orem", wlit "lehi", wlit "sandy", wlit "draper",
   -- `\bst\.?\s*george\b`
   seqs [.bnd, lit "st", opt (lit "."), sStar, lit "george", .bnd],
   wlit "logan", wlit "park city", wlit "silicon slopes",
   -- `,\s*ut\b`
   seqs [lit ",", sStar, lit "ut", .bnd],
   -- `\but\s*,`
   seqs [.bnd, lit "ut", sStar, lit ","],
   wlit "bountiful", wlit "murray", wlit "layton", wlit "clearfield",
   wlit "american fork", wlit "pleasant grove", wlit "spanish fork",
   wlit "springville", wlit "heriman", wlit "herriman", wlit "riverton",
   wlit "tooele"]

/-- `UTAH_COLLEGES`. -/
def UTAH_COLLEGES : List RE :=
  [wlit "byu", wlit "brigham young", wlit "utah state",
   wlit "university of utah", wlit "u of u", wlit "weber state",
   wlit "uvu", wlit "utah valley", wlit "southern utah",
   wlit "dixie state", wlit "utah tech",
   -- `\bwestminster\b.*\butah\b`
   seqs [wlit "westminster", dotStar, wlit "utah"],
   wlit "snow college", wlit "slcc", wlit "salt lake community",
   wlit "ensign college", wlit "utah state university"]

/-- `AE_INDICATORS`: signals of an AE-level candidate. -/
def AE_INDICATORS : List RE :=
  [wlit "account executive", wlit "ae", wlit "closing",
   -- `\bfull.?cycle\b`
   seqs [.bnd, lit "full", dotOpt, lit "cycle", .bnd],
   -- `\bmid.?market\b`
   seqs [.bnd, lit "mid", dotOpt, lit "market", .bnd],
   wlit "enterprise", wlit "smb", wlit "quota",
   -- `\b\$\d+[mk]\b`  (revenue numbers like $500K, $1M)
   seqs [.bnd, lit "$", dPlus, .cls (inStr "mk"), .bnd],
   wlit "closed",
   -- `\bsaas\b.*\b(2|3|4)\+?\s*years?\b`  (2+ years SaaS experience)
   seqs [wlit "saas", dotStar, .bnd, .grp 1 (alts (lit "2") [lit "3", lit "4"]),
         opt (lit "+"), sStar, lit "year", opt (lit "s"), .bnd],
   -- `\b(2|3|4)\+?\s*years?\b.*\bsaas\b`
   seqs [.bnd, .grp 1 (alts (lit "2") [lit "3", lit "4"]), opt (lit "+"),
         sStar, lit "year", opt (lit "s"), .bnd, dotStar, wlit "saas"],
   -- `\bsenior\s*(account|sales)\b`
   seqs [.bnd, lit "senior", sStar, .grp 1 (.alt (lit "account") (lit "sales")), .bnd]]

/-- `SDR_INDICATORS`: signals of an SDR-level candidate. -/
def SDR_INDICATORS : List RE :=
  [wlit "sdr", wlit "bdr", wlit "sales development",
   wlit "business development representative", wlit "outbound",
   wlit "cold calling", wlit "lead generation", wlit "prospecting",
   wlit "student athlete", wlit "ncaa",
   -- `\bdoor.?to.?door\b`
   seqs [.bnd, lit "door", dotOpt, lit "to", dotOpt, lit "door", .bnd],
   wlit "d2d", wlit "recent graduate",
   -- `\bentry.?level\b`
   seqs [.bnd, lit "entry", dotOpt, lit "level", .bnd],
   wlit "intern", wlit "restaurant", wlit "bartender", wlit "server"]

/-- `UTAH_TECH_COMPANIES` (matched by plain substring containment). -/
def UTAH_TECH_COMPANIES : List String :=
  ["qualtrics", "pluralsight", "podium", "lucid", "domo", "entrata",
   "weave", "divvy", "mx", "instructure", "vivint", "healthequity",
   "recursion", "carta", "workfront", "bamboohr", "workstream"]

/-! ### Classifier functions of `sdr_candidate_sourcer.py` -/

/-- `is_too_senior`: the allow-list is consulted first and short-circuits
the exclusion list. -/
def is_too_senior (headline : String) : Bool :=
  if headline = "" then false
  else
    let hl := pyLower headline
    if ALLOWED_TITLES.any (fun p => reTest p hl) then false
    else EXCLUDED_TITLES.any (fun p => reTest p hl)

/-- `is_existing_sdr`: rejects candidates whose headline+snippet shows
current/past SDR experience; empty headline returns immediately. -/
def is_existing_sdr (headline snippet : String) : Bool :=
  if headline = "" then false
  else
    let text := pyLower (headline ++ " " ++ snippet)
    if ALLOWED_TITLES.any (fun p => reTest p text) then false
    else EXISTING_SDR_TITLES.any (fun p => reTest p text)

/-- `is_utah_connected`: location, college or tech-company signal in
headline+snippet (the source's three sequential loops, each returning
`True` on first match, are equivalently `||`-combined here). -/
def is_utah_connected (headline snippet : String) : Bool :=
  let text := pyLower (headline ++ " " ++ snippet)
  UTAH_LOCATION_KEYWORDS.any (fun p => reTest p text) ||
  UTAH_COLLEGES.any (fun p => reTest p text) ||
  UTAH_TECH_COMPANIES.any (fun c => strContains text c)

/-- the years-of-experience pattern of `determine_role_fit`:
`(\d+)\+?\s*years?` -/
def roleYearsPat : RE :=
  seqs [.grp 1 dPlus, opt (lit "+"), sStar, lit "year", opt (lit "s")]

/-- the per-indicator AE score (`+1` per matching `AE_INDICATORS` pattern) -/
def aeIndicatorScore (hl : String) : Nat :=
  (AE_INDICATORS.filter (fun p => reTest p hl)).length

/-- the per-indicator SDR score (`+1` per matching `SDR_INDICATORS` pattern) -/
def sdrIndicatorScore (hl : String) : Nat :=
  (SDR_INDICATORS.filter (fun p => reTest p hl)).length

/-- `+2` if any Utah tech company occurs in the lowered headline (the
source `break`s after the first hit, so the bonus is added once). -/
def companyBonus (hl : String) : Nat :=
  if UTAH_TECH_COMPANIES.any (fun c => strContains hl c) then 2 else 0

/-- `+1` for a matched "N years" with `N ≥ 2`, another `+1` for `N ≥ 4`. -/
def yearsBonus (hl : String) : Nat :=
  match reSearch roleYearsPat hl with
  | none => 0
  | some (_, caps) =>
    let years := natOfDigits ((capGroup caps 1).getD [])
    (if 2 ≤ years then 1 else 0) + (if 4 ≤ years then 1 else 0)

/-- the final `ae_score` of `determine_role_fit` -/
def aeScoreTotal (hl : String) : Nat :=
  aeIndicatorScore hl + companyBonus hl + yearsBonus hl

/-- the final `sdr_score` of `determine_role_fit` -/
def sdrScoreTotal (hl : String) : Nat := sdrIndicatorScore hl

/-- the keyword set inspected on the source query when the headline is empty -/
def aeQueryTerms : List String := ["account executive", "ae ", "saas"]

/-- `determine_role_fit`: classify a candidate as SDR, AE or both. -/
def determine_role_fit (headline source_query : String) : String :=
  if headline = "" then
    if source_query ≠ "" then
      if aeQueryTerms.any (fun t => strContains (pyLower source_query) t) then "AE"
      else "SDR"
    else "SDR"
  else
    let hl := pyLower headline
    let ae_score := aeScoreTotal hl
    let sdr_score := sdrScoreTotal hl
    if ae_score > sdr_score ∧ ae_score ≥ 2 then "AE"
    else if sdr_score > ae_score then "SDR"
    else if ae_score > 0 ∧ sdr_score > 0 then "SDR/AE"
    else if ae_score > 0 then "AE"
    else "SDR"

/-! ### Candidate records and deduplication -/

/-- One discovered person, with the fields the source stores per candidate. -/
structure Candidate where
  full_name : String
  linkedin_url : String
  headline : String
  snippet : String
  email : String
  phone : String
  role_type : String
  source_query : String
deriving Repr, DecidableEq

/-- The normalized deduplication key: `candidate['linkedin_url'].lower().rstrip('/')`. -/
def dedupKey (c : Candidate) : String :=
  ⟨rstripCharL '/' (pyLowerL c.linkedin_url.data)⟩

/-- The loop of `deduplicate_candidates`, with the `seen_urls` set made explicit. -/
def dedupGo (seen : List String) : List Candidate → List Candidate
  | [] => []
  | c :: rest =>
    if dedupKey c ∈ seen then dedupGo seen rest
    else c :: dedupGo (dedupKey c :: seen) rest

/-- `deduplicate_candidates`: keep the first record for each normalized URL. -/
def deduplicate_candidates (candidates : List Candidate) : List Candidate :=
  dedupGo [] candidates

/-! ### The experience estimator of `update_experience.py`

`estimate_years_of_experience` evaluates five rule groups in a fixed
order and returns at the first rule that produces a value.  The current
year (`datetime.now().year` in the source) is passed explicitly. -/

/-- `years_patterns` of rule 1, each paired with its number of capturing
groups (Python's `len(match.groups())`). -/
def yearsPatterns : List (RE × Nat) :=
  [ -- `(\d+)\s*\+?\s*years?\s+(?:of\s+)?(?:experience|exp)`
   (seqs [.grp 1 dPlus, sStar, opt (lit "+"), sStar, lit "year", opt (lit "s"),
          sPlus, opt (seqs [lit "of", sPlus]), .alt (lit "experience") (lit "exp")], 1),
   -- `(\d+)\s*\+?\s*years?\s+in\s+(?:sales|saas|tech|b2b)`
   (seqs [.grp 1 dPlus, sStar, opt (lit "+"), sStar, lit "year", opt (lit "s"),
          sPlus, lit "in", sPlus,
          alts (lit "sales") [lit "saas", lit "tech", lit "b2b"]], 1),
   -- `(\d+)\s*-\s*(\d+)\s*years?`
   (seqs [.grp 1 dPlus, sStar, lit "-", sStar, .grp 2 dPlus, sStar,
          lit "year", opt (lit "s")], 2),
   -- `(\d+)\s*\+\s*years?`
   (seqs [.grp 1 dPlus, sStar, lit "+", sStar, lit "year", opt (lit "s")], 1),
   -- `(\d+)\s*years?\s+(?:sales|saas|b2b|account)`
   (seqs [.grp 1 dPlus, sStar, lit "year", opt (lit "s"), sPlus,
          alts (lit "sales") [lit "saas", lit "b2b", lit "account"]], 1)]

/-- Rule 1 of the estimator: explicit "N years" phrasings.  Mirrors the
source loop: on a match, a two-group pattern with a non-empty second
group yields `"lo-hi"`, otherwise a non-empty first group yields the
number, with a trailing `+` when the matched text contains one. -/
def scanYears : List (RE × Nat) → String → Option String
  | [], _ => none
  | (p, ngroups) :: rest, hl =>
    match reSearch p hl with
    | none => scanYears rest hl
    | some (g0, caps) =>
      let g1 := (capGroup caps 1).getD []
      let g2 := (capGroup caps 2).getD []
      if ngroups = 2 ∧ g2 ≠ [] then some ⟨g1 ++ '-' :: g2⟩
      else if g1 ≠ [] then
        some (if '+' ∈ g0 then ⟨g1 ++ ['+']⟩ else ⟨g1⟩)
      else scanYears rest hl

/-- `grad_patterns` of rule 2, each capturing the (2- or 4-digit) year as
group 1. -/
def gradPatterns : List RE :=
  [ -- `class of ['\"]?(\d{4})`
   seqs [lit "class of ", opt quoteCls, .grp 1 d4],
   -- `graduated?\s*[:\-]?\s*(\d{4})`
   seqs [lit "graduate", opt (lit "d"), sStar, opt (.cls (inStr ":-")), sStar, .grp 1 d4],
   -- `['\"](\d{2})\b`
   seqs [quoteCls, .grp 1 d2, .bnd],
   -- `\b(202[0-5])\s+(?:graduate|grad|alumni)`
   seqs [.bnd, .grp 1 (seqs [lit "202", .cls (inStr "012345")]), sPlus,
         alts (lit "graduate") [lit "grad", lit "alumni"]]]

/-- Rule 2 of the estimator: graduation-year patterns.  A matched 2-digit
year is read as `2000 + yy`; a year inside the window
`2015 ≤ year ≤ current_year` yields `current_year - year` (the label
`"<1"` when that difference is zero — inside the window Python's
`years_exp <= 0` test is exactly `= 0`); a matched year outside the
window falls through to the next pattern. -/
def scanGrad (currentYear : Nat) : List RE → String → Option String
  | [], _ => none
  | p :: rest, hl =>
    match reSearch p hl with
    | none => scanGrad currentYear rest hl
    | some (_, caps) =>
      let ystr := (capGroup caps 1).getD []
      let year := if ystr.length = 2 then 2000 + natOfDigits ystr else natOfDigits ystr
      if 2015 ≤ year ∧ year ≤ currentYear then
        some (if currentYear - year = 0 then "<1" else natToStr (currentYear - year))
      else scanGrad currentYear rest hl

/-- `title_experience` of rule 3: seniority keywords mapped to fixed
bands, in the source dict's insertion order. -/
def titlePatterns : List (RE × String) :=
  [ -- `\b(intern|internship)\b`
   (seqs [.bnd, .grp 1 (.alt (lit "intern") (lit "internship")), .bnd], "<1"),
   (wlit "student", "<1"),
   -- `\bentry.?level\b`
   (seqs [.bnd, lit "entry", dotOpt, lit "level", .bnd], "<1"),
   -- `\brecent\s+grad`
   (seqs [.bnd, lit "recent", sPlus, lit "grad"], "<1"),
   -- `\b(sdr|bdr)\b(?!.*(?:manager|lead|senior))`
   (seqs [.bnd, .grp 1 (.alt (lit "sdr") (lit "bdr")), .bnd,
          .nla (seqs [dotStar, alts (lit "manager") [lit "lead", lit "senior"]])], "1-2"),
   (wlit "junior", "1-2"),
   -- `\bassociate\b(?!.*director)`
   (seqs [wlit "associate", .nla (seqs [dotStar, lit "director"])], "1-2"),
   -- `\baccount\s+executive\b(?!.*senior)`
   (seqs [.bnd, lit "account", sPlus, lit "executive", .bnd,
          .nla (seqs [dotStar, lit "senior"])], "2-4"),
   -- `\b(ae)\b(?!.*senior)`
   (seqs [.bnd, .grp 1 (lit "ae"), .bnd, .nla (seqs [dotStar, lit "senior"])], "2-4"),
   -- `\bmid.?market\b`
   (seqs [.bnd, lit "mid", dotOpt, lit "market", .bnd], "2-4"),
   -- `\bsenior\s+(account\s+executive|ae|sdr)\b`
   (seqs [.bnd, lit "senior", sPlus,
          .grp 1 (alts (seqs [lit "account", sPlus, lit "executive"]) [lit "ae", lit "sdr"]),
          .bnd], "4+"),
   -- `\b(smb|enterprise)\s+account\s+executive\b`
   (seqs [.bnd, .grp 1 (.alt (lit "smb") (lit "enterprise")), sPlus,
          lit "account", sPlus, lit "executive", .bnd], "3-5"),
   -- `\bteam\s+lead\b`
   (seqs [.bnd, lit "team", sPlus, lit "lead", .bnd], "3+"),
   -- `\bsales\s+manager\b`
   (seqs [.bnd, lit "sales", sPlus, lit "manager", .bnd], "4+")]

/-- Rule 3 of the estimator: first matching title pattern wins. -/
def scanTitle : List (RE × String) → String → Option String
  | [], _ => none
  | (p, band) :: rest, hl =>
    if reTest p hl then some band else scanTitle rest hl

/-- `(\d+)\s*(?:yr|year)s?\s+at\b` of rule 4 -/
def tenureAtPat : RE :=
  seqs [.grp 1 dPlus, sStar, .alt (lit "yr") (lit "year"), opt (lit "s"),
        sPlus, lit "at", .bnd]

/-- `since\s+(\d{4})\b` of rule 4 -/
def sincePat : RE := seqs [lit "since", sPlus, .grp 1 d4, .bnd]

/-- Rendering of a possibly-negative integer (Python's `str`). -/
def intToStr (i : Int) : String := toString i

/-- Rule 4 of the estimator: company-tenure phrasings. -/
def scanTenure (currentYear : Nat) (hl : String) : Option String :=
  match reSearch tenureAtPat hl with
  | some (_, caps) => some ⟨(capGroup caps 1).getD []⟩
  | none =>
    match reSearch sincePat hl with
    | some (_, caps) =>
      some (intToStr ((currentYear : Int) - (natOfDigits ((capGroup caps 1).getD []) : Int)))
    | none => none

/-- `\b(sales|account|business\s+development)\b` of rule 5 -/
def salesRolePat : RE :=
  seqs [.bnd, .grp 1 (alts (lit "sales")
          [lit "account", seqs [lit "business", sPlus, lit "development"]]), .bnd]

/-- `\b(proven|experienced|seasoned|successful)\b` of rule 5 -/
def seasonedPat : RE :=
  seqs [.bnd, .grp 1 (alts (lit "proven")
          [lit "experienced", lit "seasoned", lit "successful"]), .bnd]

/-- Rules 3–5 of the estimator (everything after the graduation-year
branch), split out so fall-through from rule 2 can be stated. -/
def laterRules (currentYear : Nat) (hl : String) : String :=
  match scanTitle titlePatterns hl with
  | some r => r
  | none =>
    match scanTenure currentYear hl with
    | some r => r
    | none =>
      if reTest salesRolePat hl then
        if reTest seasonedPat hl then "3+" else ""
      else ""

/-- `estimate_years_of_experience`: the full rule chain. -/
def estimate_years_of_experience (currentYear : Nat) (headline : String) : String :=
  if headline = "" then ""
  else
    let hl := pyLower headline
    match scanYears yearsPatterns hl with
    | some r => r
    | none =>
      match scanGrad currentYear gradPatterns hl with
      | some r => r
      | none => laterRules currentYear hl

/-! ### The real-time persistence path

The gspread worksheet is an external collaborator; it is modelled as a
record of fallible operations (`Except` models a raised exception).  Only
the operations `upload_candidate_realtime` and `get_column_index` invoke
are modelled. -/

/-- Model of a gspread worksheet: each call either returns or raises. -/
structure Worksheet where
  /-- `worksheet.row_values(1)` -/
  rowValues1 : Except String (List String)
  /-- `worksheet.update_cell(row, col, value)` -/
  updateCell : Nat → Nat → String → Except String Unit
  /-- `worksheet.append_row(row)` -/
  appendRow : List String → Except String Unit

/-- Model of Python's `str.strip()` (ASCII whitespace). -/
def stripWs (s : String) : String :=
  ⟨(((s.data.dropWhile isSpaceChar).reverse.dropWhile isSpaceChar).reverse)⟩

/-- `get_column_index`: 1-based index of a header, `none` on a raised
exception or a missing header. -/
def get_column_index (ws : Worksheet) (column_name : String) : Option Nat :=
  match ws.rowValues1 with
  | .error _ => none
  | .ok first_row =>
    (first_row.enumFrom 1).findSome? (fun hi =>
      if pyLower (stripWs hi.2) = pyLower (stripWs column_name) then some hi.1 else none)

/-- The body of the `try:` block of `upload_candidate_realtime`: on
success it returns the outcome string together with the (possibly
extended) `existing_urls` map; a raised exception is an `Except.error`.
The `existing_urls` dict is modelled as an association list. -/
def uploadTryBody (ws : Worksheet) (candidate : Candidate)
    (existing_urls : List (String × Nat)) (date_added_col : Nat) (today : String) :
    Except String (String × List (String × Nat)) := do
  let url_normalized := dedupKey candidate
  match existing_urls.find? (fun p => p.1 == url_normalized) with
  | some (_, row_num) =>
    let role_type := candidate.role_type
    let role_col := (get_column_index ws "Role Fit").getD 5
    ws.updateCell row_num role_col role_type
    ws.updateCell row_num date_added_col today
    pure ("updated", existing_urls)
  | none =>
    let row := [candidate.full_name, candidate.linkedin_url, candidate.headline,
                "", candidate.role_type, "", candidate.email, candidate.phone,
                today, "", ""]
    ws.appendRow row
    let new_row_num := existing_urls.length + 2
    pure ("new", existing_urls ++ [(url_normalized, new_row_num)])

/-- The `Date Added` column resolution of `upload_candidate_realtime`:
the given column if provided, else the dynamic header lookup with the
fixed fallback `9`. -/
def resolveDateCol (ws : Worksheet) (date_added_col : Option Nat) : Nat :=
  match date_added_col with
  | some c => c
  | none => (get_column_index ws "Date Added").getD 9

/-- `upload_candidate_realtime`: returns `"new"`, `"updated"` or
`"skipped"` (and the updated `existing_urls` map).  A missing worksheet
short-circuits to `"skipped"`; a raised exception inside the try block is
caught and also yields `"skipped"` with `existing_urls` unchanged. -/
def upload_candidate_realtime (worksheet : Option Worksheet) (candidate : Candidate)
    (existing_urls : List (String × Nat)) (date_added_col : Option Nat) (today : String) :
    String × List (String × Nat) :=
  match worksheet with
  | none => ("skipped", existing_urls)
  | some ws =>
    match uploadTryBody ws candidate existing_urls (resolveDateCol ws date_added_col) today with
    | .ok res => res
    | .error _ => ("skipped", existing_urls)

/-- The per-run state of the candidate-processing loop in `main`. -/
structure LoopState where
  seen_urls : List String
  existing_urls : List (String × Nat)
  all_candidates : List Candidate
  stat_new : Nat
  stat_updated : Nat
  stat_skipped : Nat
  stat_filtered : Nat
  stat_filtered_non_utah : Nat
  stat_filtered_existing_sdr : Nat
deriving Repr, DecidableEq

/-- `stats[result] += 1` for the three upload outcomes. -/
def bumpStat (st : LoopState) (result : String) : LoopState :=
  if result = "new" then { st with stat_new := st.stat_new + 1 }
  else if result = "updated" then { st with stat_updated := st.stat_updated + 1 }
  else if result = "skipped" then { st with stat_skipped := st.stat_skipped + 1 }
  else st

/-- The body of `main`'s per-candidate loop: session dedup, the three
filters, collection, and the real-time upload.  `query_type` is `"AE"`
iff the query came from the AE query lists. -/
def processCandidate (worksheet : Option Worksheet) (date_added_col : Option Nat)
    (today query_type : String) (st : LoopState) (candidate : Candidate) : LoopState :=
  let url_normalized := dedupKey candidate
  if url_normalized ∈ st.seen_urls then st
  else
    let st := { st with seen_urls := url_normalized :: st.seen_urls }
    if is_too_senior candidate.headline then
      { st with stat_filtered := st.stat_filtered + 1 }
    else if query_type = "SDR" ∧ is_existing_sdr candidate.headline candidate.snippet then
      { st with stat_filtered_existing_sdr := st.stat_filtered_existing_sdr + 1 }
    else if ¬ is_utah_connected candidate.headline candidate.snippet then
      { st with stat_filtered_non_utah := st.stat_filtered_non_utah + 1 }
    else
      let st := { st with all_candidates := st.all_candidates ++ [candidate] }
      match worksheet with
      | none => st
      | some ws =>
        let (result, existing) :=
          upload_candidate_realtime (some ws) candidate st.existing_urls date_added_col today
        bumpStat { st with existing_urls := existing } result

/-- `main`'s loop over the candidates one query returned. -/
def processCandidates (worksheet : Option Worksheet) (date_added_col : Option Nat)
    (today query_type : String) : List Candidate → LoopState → LoopState
  | [], st => st
  | c :: rest, st =>
    processCandidates worksheet date_added_col today query_type rest
      (processCandidate worksheet date_added_col today query_type st c)

/-! ### URL normalization

The search path cleans a hit's URL with `unquote(url).split('?')[0]`
(`search_with_serpapi` and the other search backends) and the
deduplication key is later formed with `.lower().rstrip('/')`
(`deduplicate_candidates`, `upload_candidate_realtime`).  `normalizeUrl`
is that composite operation; `normalizeNoUnquote` is the same without the
percent-decoding step. -/

/-- The composite normalization: percent-decode, drop the query string,
lower-case, strip trailing slashes. -/
def normalizeUrl (u : String) : String :=
  ⟨rstripCharL '/' (pyLowerL (splitFirstL '?' (unquoteL u.data)))⟩

/-- The normalization without `unquote`: drop the query string,
lower-case, strip trailing slashes. -/
def normalizeNoUnquote (u : String) : String :=
  ⟨rstripCharL '/' (pyLowerL (splitFirstL '?' u.data))⟩

/-! ### Spec-side definitions

`roleFitDecisionSpec` restates, word for word, the spec's role-fit
decision rule (RoleA = SDR, RoleB = AE), to be compared with
`determine_role_fit`. -/

/-- The spec's decision rule over the two scores. -/
def roleFitDecisionSpec (scoreA scoreB : Nat) : String :=
  if scoreB > scoreA ∧ scoreB ≥ 2 then "AE"
  else if scoreA > scoreB then "SDR"
  else if scoreA > 0 ∧ scoreB > 0 then "SDR/AE"
  else if scoreB > 0 then "AE"
  else "SDR"

/-! ### Theorems -/

/-- C10: a candidate with an empty headline is never rejected by the
incumbent (existing SDR/BDR) exclusion, whatever the snippet contains:
the empty-headline guard returns `False` before the concatenated
headline+snippet text is examined. -/
theorem empty_headline_never_existing_sdr (s : String) :
    is_existing_sdr "" s = false := by
  unfold is_existing_sdr
  simp

/-- C5: the allow-list takes precedence: a headline matching an allowed
(founder/owner) pattern is never flagged by `is_too_senior`, and an
allowed match on the concatenated headline+snippet text likewise
short-circuits the incumbent exclusion `is_existing_sdr`. -/
theorem allow_list_overrides_exclusions (h s : String) :
    (ALLOWED_TITLES.any (fun p => reTest p (pyLower h)) = true →
      is_too_senior h = false) ∧
    (ALLOWED_TITLES.any (fun p => reTest p (pyLower (h ++ " " ++ s))) = true →
      is_existing_sdr h s = false) := by
  constructor
  · intro hall
    unfold is_too_senior
    by_cases he : h = ""
    · simp [he]
    · simp [he, hall]
  · intro hall
    unfold is_existing_sdr
    by_cases he : h = ""
    · simp [he]
    · simp [he, hall]

/-- C5 witness: a headline containing both `Director` (an excluded term)
and `Founder` (an allowed term) passes both filters. -/
theorem allow_list_overrides_exclusions_witness :
    is_too_senior "Founder and Director" = false ∧
    is_existing_sdr "Founder and Director" "was an SDR" = false :=
  ⟨(allow_list_overrides_exclusions "Founder and Director" "was an SDR").1 (by decide),
   (allow_list_overrides_exclusions "Founder and Director" "was an SDR").2 (by decide)⟩

/-- C2: `determine_role_fit` is total and deterministic — for every
headline and source query it returns exactly one of the three labels —
and on an empty headline it returns `"AE"` exactly when the source query
is non-empty and contains one of the narrow AE keywords
(`account executive`, `ae `, `saas`), else `"SDR"`. -/
theorem role_fit_total_and_empty_fallback (h q : String) :
    (determine_role_fit h q = "SDR" ∨ determine_role_fit h q = "AE" ∨
     determine_role_fit h q = "SDR/AE") ∧
    (h = "" → determine_role_fit h q =
      if q ≠ "" ∧ aeQueryTerms.any (fun t => strContains (pyLower q) t) = true
      then "AE" else "SDR") := by
  constructor
  · unfold determine_role_fit
    by_cases he : h = "" <;> simp only [he, if_true, if_false, reduceIte] <;>
      (repeat' split) <;> simp
  · intro he
    subst he
    unfold determine_role_fit
    by_cases hq : q = ""
    · simp [hq]
    · by_cases ha : aeQueryTerms.any (fun t => strContains (pyLower q) t) = true
      · simp [hq, ha]
      · simp [hq, ha]

/-- C2 witness: empty headline with a `saas` query yields `"AE"`; empty
headline and empty query yields `"SDR"`. -/
theorem role_fit_total_and_empty_fallback_witness :
    determine_role_fit "" "saas ae jobs utah" = "AE" ∧
    determine_role_fit "" "" = "SDR" := by
  have h1 := (role_fit_total_and_empty_fallback "" "saas ae jobs utah").2 rfl
  have h2 := (role_fit_total_and_empty_fallback "" "").2 rfl
  rw [h1, h2]
  constructor <;> decide

/-- C1: on every non-empty headline, `determine_role_fit` returns exactly
the spec's decision rule applied to the computed SDR score (`scoreA`) and
AE score (`scoreB`), including the asymmetric `scoreB ≥ 2` requirement. -/
theorem role_fit_follows_spec_decision_rule (h q : String) (hne : h ≠ "") :
    determine_role_fit h q =
      roleFitDecisionSpec (sdrScoreTotal (pyLower h)) (aeScoreTotal (pyLower h)) := by
  unfold determine_role_fit roleFitDecisionSpec
  rw [if_neg hne]
  dsimp only
  split_ifs <;> first | rfl | omega

/-- C1 witness: the spec's AE example headline. -/
theorem role_fit_follows_spec_decision_rule_witness :
    determine_role_fit "Account Executive, SaaS, 3+ years, Qualtrics" "" =
      roleFitDecisionSpec
        (sdrScoreTotal (pyLower "Account Executive, SaaS, 3+ years, Qualtrics"))
        (aeScoreTotal (pyLower "Account Executive, SaaS, 3+ years, Qualtrics")) :=
  role_fit_follows_spec_decision_rule _ "" (by decide)

/-- The output of the dedup loop is a subsequence of its input. -/
theorem dedupGo_sublist (seen : List String) (cs : List Candidate) :
    List.Sublist (dedupGo seen cs) cs := by
  induction cs generalizing seen with
  | nil => simp [dedupGo]
  | cons c rest ih =>
    unfold dedupGo
    split
    · exact (ih seen).cons c
    · exact (ih (dedupKey c :: seen)).cons₂ c

/-- No record with an already-seen key survives the dedup loop. -/
theorem dedupGo_filter_seen (cs : List Candidate) (seen : List String) (k : String)
    (hk : k ∈ seen) :
    (dedupGo seen cs).filter (fun c => dedupKey c == k) = [] := by
  induction cs generalizing seen with
  | nil => simp [dedupGo]
  | cons c rest ih =>
    unfold dedupGo
    split
    · exact ih seen hk
    · rename_i hns
      rw [List.filter_cons]
      have hne : (dedupKey c == k) = false := by
        simp only [beq_eq_false_iff_ne, ne_eq]
        intro he
        exact hns (he ▸ hk)
      simp only [hne, Bool.false_eq_true, if_false]
      exact ih (dedupKey c :: seen) (List.mem_cons_of_mem _ hk)

/-- For an unseen key, the dedup loop keeps exactly the first occurrence. -/
theorem dedupGo_filter_unseen (cs : List Candidate) (seen : List String) (k : String)
    (hk : k ∉ seen) :
    (dedupGo seen cs).filter (fun c => dedupKey c == k) =
      (cs.find? (fun c => dedupKey c == k)).toList := by
  induction cs generalizing seen with
  | nil => simp [dedupGo]
  | cons c rest ih =>
    unfold dedupGo
    split
    · rename_i hs
      have hne : (dedupKey c == k) = false := by
        simp only [beq_eq_false_iff_ne, ne_eq]
        intro he
        exact hk (he ▸ hs)
      rw [List.find?_cons, hne]
      exact ih seen hk
    · rename_i hns
      rw [List.filter_cons, List.find?_cons]
      by_cases he : dedupKey c = k
      · simp only [he, beq_self_eq_true, if_true]
        rw [dedupGo_filter_seen rest _ k (he ▸ List.mem_cons_self _ _)]
        rfl
      · have hne : (dedupKey c == k) = false := by
          simp only [beq_eq_false_iff_ne, ne_eq]; exact he
        simp only [hne, Bool.false_eq_true, if_false]
        exact ih (dedupKey c :: seen) (by
          intro hmem
          rcases List.mem_cons.mp hmem with h1 | h2
          · exact he h1.symm
          · exact hk h2)

/-- C3: `deduplicate_candidates` preserves first-seen order (its output is
a subsequence of the input) and, for every normalized profile-URL key,
keeps exactly the first input record with that key, dropping all later
duplicates; in particular no two output rows share a key, so the
rewritten local backup never contains two rows for the same profile. -/
theorem dedup_first_occurrence_wins (cs : List Candidate) :
    List.Sublist (deduplicate_candidates cs) cs ∧
    ∀ k : String,
      (deduplicate_candidates cs).filter (fun c => dedupKey c == k) =
        (cs.find? (fun c => dedupKey c == k)).toList :=
  ⟨dedupGo_sublist [] cs,
   fun k => dedupGo_filter_unseen cs [] k (List.not_mem_nil k)⟩

/-- C4 counterexample: two fresh records share the same normalized
profile URL, the first with an empty role label and the second with
`"AE"`; after the merge-and-deduplicate step the one persisted row
carries the EMPTY label — the non-empty label is not retained when the
empty-labelled record comes first. -/
theorem dedup_pair_empty_label_first_refutes :
    (deduplicate_candidates
      [⟨"Jane Doe", "https://linkedin.com/in/jane-doe", "BYU student", "", "", "", "", "q1"⟩,
       ⟨"Jane Doe", "https://linkedin.com/in/jane-doe/", "Account Executive", "", "", "", "AE", "q2"⟩]).map
      Candidate.role_type = [""] := by decide

/-- C4 amended: if two records share the same normalized profile URL then
after deduplication exactly one persisted row exists for that key, namely
the FIRST record in sequence order with its label retained as-is (the
later record — and its label, empty or not — is dropped; on the separate
realtime-update path the later record's label instead overwrites the
stored one). -/
theorem dedup_pair_keeps_first (a b : Candidate) (hk : dedupKey a = dedupKey b) :
    deduplicate_candidates [a, b] = [a] := by
  simp [deduplicate_candidates, dedupGo, hk]

/-- C4 amended witness: the same two records as the counterexample. -/
theorem dedup_pair_keeps_first_witness :
    deduplicate_candidates
      [⟨"Jane Doe", "https://linkedin.com/in/jane-doe", "BYU student", "", "", "", "", "q1"⟩,
       ⟨"Jane Doe", "https://LinkedIn.com/in/jane-doe/", "Account Executive", "", "", "", "AE", "q2"⟩] =
      [⟨"Jane Doe", "https://linkedin.com/in/jane-doe", "BYU student", "", "", "", "", "q1"⟩] :=
  dedup_pair_keeps_first _ _ (by decide)

/-- C6: the rule groups of the experience estimator are evaluated in a
fixed priority order with no accumulation: whenever the explicit-years
rule (rule 1) produces a value, that value is the estimator's result even
if a graduation-year pattern (rule 2) also matches; and when no rule
produces a value the estimator returns the empty string, never a guessed
band. -/
theorem explicit_years_rule_has_priority (currentYear : Nat) (h : String) :
    (∀ r, scanYears yearsPatterns (pyLower h) = some r →
      gradPatterns.any (fun p => (reSearch p (pyLower h)).isSome) = true →
      estimate_years_of_experience currentYear h = r) ∧
    (scanYears yearsPatterns (pyLower h) = none →
     scanGrad currentYear gradPatterns (pyLower h) = none →
     scanTitle titlePatterns (pyLower h) = none →
     scanTenure currentYear (pyLower h) = none →
     (reTest salesRolePat (pyLower h) = false ∨ reTest seasonedPat (pyLower h) = false) →
     estimate_years_of_experience currentYear h = "") := by
  constructor
  · intro r hy _
    by_cases he : h = ""
    · rw [he] at hy
      have hnone : scanYears yearsPatterns (pyLower "") = none := by decide
      rw [hnone] at hy
      cases hy
    · unfold estimate_years_of_experience
      rw [if_neg he]
      dsimp only
      rw [hy]
  · intro h1 h2 h3 h4 h5
    by_cases he : h = ""
    · simp [estimate_years_of_experience, he]
    · unfold estimate_years_of_experience laterRules
      rw [if_neg he]
      dsimp only
      rw [h1, h2, h3, h4]
      rcases h5 with h5 | h5
      · rw [if_neg (by simp [h5])]
      · by_cases hs : reTest salesRolePat (pyLower h) = true
        · rw [if_pos hs, if_neg (by simp [h5])]
        · rw [if_neg hs]

/-- C6 witness: a headline with both an explicit years phrase and a
graduation year yields the explicit number; a headline matching nothing
yields the empty string. -/
theorem explicit_years_rule_has_priority_witness :
    estimate_years_of_experience 2026 "5 years experience, class of 2020" = "5" ∧
    estimate_years_of_experience 2026 "zzz" = "" :=
  ⟨(explicit_years_rule_has_priority 2026 "5 years experience, class of 2020").1 "5"
     (by decide) (by decide),
   (explicit_years_rule_has_priority 2026 "zzz").2
     (by decide) (by decide) (by decide) (by decide) (Or.inl (by decide))⟩

/-- Any value the graduation-year branch produces comes from a matched
year inside the window `2015 ≤ year ≤ currentYear` and equals
`currentYear - year` rendered in decimal, or `"<1"` for a zero
difference. -/
theorem scanGrad_in_window (currentYear : Nat) (l : List RE) (hl : String) (r : String)
    (hr : scanGrad currentYear l hl = some r) :
    ∃ y, 2015 ≤ y ∧ y ≤ currentYear ∧
      r = (if currentYear - y = 0 then "<1" else natToStr (currentYear - y)) := by
  induction l with
  | nil => simp [scanGrad] at hr
  | cons p rest ih =>
    unfold scanGrad at hr
    cases hs : reSearch p hl with
    | none =>
      rw [hs] at hr
      exact ih hr
    | some m =>
      rw [hs] at hr
      dsimp only at hr
      split at hr
      · split at hr
        · rename_i hw
          exact ⟨_, hw.1, hw.2, (Option.some.inj hr).symm⟩
        · exact ih hr
      · split at hr
        · rename_i hw
          exact ⟨_, hw.1, hw.2, (Option.some.inj hr).symm⟩
        · exact ih hr

/-- C7: the graduation-year branch produces a result only from a matched
year inside the window `2015 ≤ year ≤ current_year`, in which case the
result is the decimal string of `current_year - year` (`"<1"` when the
difference is non-positive, which inside the window means zero); when
every matched year is outside the window the branch produces nothing and
evaluation falls through to the later rule groups. -/
theorem grad_year_window_guard (currentYear : Nat) (h : String) :
    (∀ r, scanGrad currentYear gradPatterns (pyLower h) = some r →
      ∃ y, 2015 ≤ y ∧ y ≤ currentYear ∧
        r = (if currentYear - y = 0 then "<1" else natToStr (currentYear - y))) ∧
    (h ≠ "" →
     scanYears yearsPatterns (pyLower h) = none →
     scanGrad currentYear gradPatterns (pyLower h) = none →
     estimate_years_of_experience currentYear h = laterRules currentYear (pyLower h)) := by
  constructor
  · intro r hr
    exact scanGrad_in_window currentYear gradPatterns (pyLower h) r hr
  · intro he h1 h2
    unfold estimate_years_of_experience
    rw [if_neg he]
    dsimp only
    rw [h1, h2]

/-- C7 witness: `class of 2024` is inside the window and yields `"2"` for
current year 2026; `graduated 1999` matches a graduation pattern but lies
outside the window, so the estimator falls through to the later rules. -/
theorem grad_year_window_guard_witness :
    (∃ y, 2015 ≤ y ∧ y ≤ 2026 ∧
      "2" = (if 2026 - y = 0 then "<1" else natToStr (2026 - y))) ∧
    estimate_years_of_experience 2026 "graduated 1999" =
      laterRules 2026 (pyLower "graduated 1999") :=
  ⟨(grad_year_window_guard 2026 "class of 2024").1 "2" (by decide),
   (grad_year_window_guard 2026 "graduated 1999").2 (by decide) (by decide) (by decide)⟩

/-- `Char.ofNat` of a value below the surrogate range decodes back to
that value. -/
theorem toNat_ofNat_small (n : Nat) (hn : n < 55296) : (Char.ofNat n).toNat = n := by
  rw [Char.ofNat, dif_pos (Or.inl hn)]
  rfl

/-- Lower-casing a character is idempotent. -/
theorem lowerChar_idem (c : Char) : lowerChar (lowerChar c) = lowerChar c := by
  unfold lowerChar
  by_cases hc : 65 ≤ c.toNat ∧ c.toNat ≤ 90
  · rw [if_pos hc, if_neg]
    rw [toNat_ofNat_small (c.toNat + 32) (by omega)]
    omega
  · simp only [if_neg hc]

/-- Lower-casing only moves characters out of the upper-case range, so a
character that was not `x` stays distinct from any non-alphabetic `x`. -/
theorem lowerChar_eq_imp (c x : Char) (hx : ¬ (97 ≤ x.toNat ∧ x.toNat ≤ 122))
    (h : lowerChar c = x) : c = x := by
  unfold lowerChar at h
  by_cases hc : 65 ≤ c.toNat ∧ c.toNat ≤ 90
  · rw [if_pos hc] at h
    exfalso
    have := congrArg Char.toNat h
    rw [toNat_ofNat_small (c.toNat + 32) (by omega)] at this
    omega
  · rwa [if_neg hc] at h

/-- Members of an `rstripCharL` output are members of the input. -/
theorem mem_rstripCharL (x : Char) (c : Char) (l : List Char)
    (h : x ∈ rstripCharL c l) : x ∈ l := by
  unfold rstripCharL at h
  rw [List.mem_reverse] at h
  exact List.mem_reverse.mp ((List.dropWhile_sublist _).mem h)

/-- Stripping a trailing character is idempotent. -/
theorem rstripCharL_idem (c : Char) (l : List Char) :
    rstripCharL c (rstripCharL c l) = rstripCharL c l := by
  unfold rstripCharL
  rw [List.reverse_reverse, List.dropWhile_idempotent]

/-- C8 amended: the normalization actually used to build the canonical
deduplication key — drop the query string, lower-case, strip trailing
slashes — is idempotent; the percent-decoding (`unquote`) step the search
path additionally performs is what breaks idempotence of the full
composite (see the counterexample). -/
theorem normalize_no_unquote_idempotent (u : String) :
    normalizeNoUnquote (normalizeNoUnquote u) = normalizeNoUnquote u := by
  unfold normalizeNoUnquote
  show (⟨rstripCharL '/' (pyLowerL (splitFirstL '?'
          (rstripCharL '/' (pyLowerL (splitFirstL '?' u.data)))))⟩ : String) = _
  set v := rstripCharL '/' (pyLowerL (splitFirstL '?' u.data)) with hv
  have hvmem : ∀ x ∈ v, ∃ d, d ∈ splitFirstL '?' u.data ∧ x = lowerChar d := by
    intro x hx
    have hx2 : x ∈ pyLowerL (splitFirstL '?' u.data) := mem_rstripCharL x '/' _ hx
    rcases List.mem_map.mp hx2 with ⟨d, hd, hxd⟩
    exact ⟨d, hd, hxd.symm⟩
  have h1 : splitFirstL '?' v = v := by
    unfold splitFirstL
    rw [List.takeWhile_eq_self_iff]
    intro x hx
    rcases hvmem x hx with ⟨d, hd, hxd⟩
    have hdq : (d != '?') = true :=
      List.mem_takeWhile_imp (p := fun x => x != '?') (l := u.data) hd
    simp only [bne_iff_ne, ne_eq] at hdq ⊢
    intro hxq
    exact hdq (lowerChar_eq_imp d '?' (by decide) (hxd ▸ hxq))
  have h2 : pyLowerL v = v := by
    unfold pyLowerL
    have : ∀ x ∈ v, lowerChar x = id x := by
      intro x hx
      rcases hvmem x hx with ⟨d, _, hxd⟩
      rw [hxd, lowerChar_idem]
      rfl
    rw [List.map_congr_left this, List.map_id]
  have h3 : rstripCharL '/' v = v := by
    rw [hv, rstripCharL_idem]
  rw [h1, h2, h3]

/-- C8 counterexample: with the percent-decoding step included — as the
claim's normalize specifies via `unquote` on the search path — the
normalization is NOT idempotent: `"%2541"` normalizes to `"%41"`, which
normalizes again to `"a"`. -/
theorem normalize_unquote_not_idempotent :
    normalizeUrl (normalizeUrl "%2541") ≠ normalizeUrl "%2541" := by decide

/-- C9: persistence failures never abort the batch.  (1) Without a
worksheet the outcome is `"skipped"` and no write is attempted.  (2) If
the try-block body raises, the exception is caught: the outcome is
`"skipped"` and `existing_urls` is unchanged.  (3) In `main`'s loop, a
record whose persistence call raises is recorded as skipped and the loop
continues with the remaining records from that state. -/
theorem upload_failure_skipped_and_loop_continues
    (ws : Worksheet) (c : Candidate) (dcol : Option Nat) (today : String) :
    (∀ existing, upload_candidate_realtime none c existing dcol today =
      ("skipped", existing)) ∧
    (∀ existing e,
      uploadTryBody ws c existing (resolveDateCol ws dcol) today = .error e →
      upload_candidate_realtime (some ws) c existing dcol today =
        ("skipped", existing)) ∧
    (∀ (query_type : String) (st : LoopState) (e : String) (rest : List Candidate),
      dedupKey c ∉ st.seen_urls →
      is_too_senior c.headline = false →
      ¬ (query_type = "SDR" ∧ is_existing_sdr c.headline c.snippet = true) →
      is_utah_connected c.headline c.snippet = true →
      uploadTryBody ws c st.existing_urls (resolveDateCol ws dcol) today = .error e →
      processCandidates (some ws) dcol today query_type (c :: rest) st =
        processCandidates (some ws) dcol today query_type rest
          { st with seen_urls := dedupKey c :: st.seen_urls,
                    all_candidates := st.all_candidates ++ [c],
                    stat_skipped := st.stat_skipped + 1 }) := by
  refine ⟨fun existing => rfl, fun existing e he => ?_, ?_⟩
  · unfold upload_candidate_realtime
    dsimp only
    rw [he]
  · intro query_type st e rest hseen hsen hsdr hutah htry
    show processCandidates (some ws) dcol today query_type rest
      (processCandidate (some ws) dcol today query_type st c) = _
    have hpc : processCandidate (some ws) dcol today query_type st c =
        { st with seen_urls := dedupKey c :: st.seen_urls,
                  all_candidates := st.all_candidates ++ [c],
                  stat_skipped := st.stat_skipped + 1 } := by
      unfold processCandidate
      rw [if_neg hseen]
      rw [if_neg (show ¬ is_too_senior c.headline = true by simp [hsen])]
      rw [if_neg hsdr]
      rw [if_neg (not_not_intro hutah)]
      dsimp only
      unfold upload_candidate_realtime
      dsimp only
      rw [htry]
      rfl
    rw [hpc]

/-- C9 witness: a worksheet whose every write raises, and a candidate
passing all filters: the record is counted as skipped and the following
record is still processed. -/
theorem upload_failure_skipped_and_loop_continues_witness :
    (upload_candidate_realtime none
      ⟨"Pat", "https://linkedin.com/in/pat", "BYU student", "", "", "", "SDR", "q"⟩
      [] (some 9) "2026-10-12" = ("skipped", [])) ∧
    processCandidates
      (some ⟨.ok [], fun _ _ _ => .error "boom", fun _ => .error "boom"⟩)
      (some 9) "2026-10-12" "AE"
      [⟨"Pat", "https://linkedin.com/in/pat", "BYU student", "", "", "", "SDR", "q"⟩]
      ⟨[], [], [], 0, 0, 0, 0, 0, 0⟩ =
    processCandidates
      (some ⟨.ok [], fun _ _ _ => .error "boom", fun _ => .error "boom"⟩)
      (some 9) "2026-10-12" "AE" []
      ⟨[dedupKey ⟨"Pat", "https://linkedin.com/in/pat", "BYU student", "", "", "", "SDR", "q"⟩],
       [], [⟨"Pat", "https://linkedin.com/in/pat", "BYU student", "", "", "", "SDR", "q"⟩],
       0, 0, 1, 0, 0, 0⟩ := by
  refine ⟨(upload_failure_skipped_and_loop_continues
            ⟨.ok [], fun _ _ _ => .error "boom", fun _ => .error "boom"⟩
            ⟨"Pat", "https://linkedin.com/in/pat", "BYU student", "", "", "", "SDR", "q"⟩
            (some 9) "2026-10-12").1 [], ?_⟩
  exact (upload_failure_skipped_and_loop_continues
          ⟨.ok [], fun _ _ _ => .error "boom", fun _ => .error "boom"⟩
          ⟨"Pat", "https://linkedin.com/in/pat", "BYU student", "", "", "", "SDR", "q"⟩
          (some 9) "2026-10-12").2.2 "AE"
          ⟨[], [], [], 0, 0, 0, 0, 0, 0⟩ "boom" []
          (by decide) (by decide) (by decide) (by decide) rfl

end SdrSourcer
